import Mathlib

/-!
Verification of the mongodb-ETL repository against its specification.

The repository is a small business-intelligence stack over MongoDB:
* `scripts/etl_pipeline.py` - three CSV loaders that normalise rows into a
  common document shape and batch-insert them (`insert_many`, `ordered=False`);
* `scripts/cleanup.py` - an interactive script that optionally drops the
  collection;
* `scripts/scheduler.py` - a 60-second polling loop that shells out to the
  loader once per day at a configured time;
* `dashboard/aggregations.py` - a class of read-only aggregation queries.

The shallow embedding below models:
* BSON values (`BVal`) with exact rational numbers standing for both Python
  ints and floats (every arithmetic operation performed by the repository is
  exact at the values it computes, so rationals are faithful);
* the collection as a `List BVal` of documents;
* each database call the repository makes as a `ColCall`, paired with a
  Boolean telling whether the server accepted it, so that loader error
  handling (a failed batch) is expressible;
* the MongoDB aggregation stages used by the repository, with an evaluator
  (`Pipeline.eval`) implementing their documented semantics.

CSV parsing is pandas territory and is modelled by handing each loader the
already-parsed rows; a missing column and a NaN cell are both modelled as
`none` in the row records (the `.get` defaults of the source then apply).
-/

/-- A calendar timestamp (year, month, day, second-of-day), standing for the
Python/pandas datetime values the loaders store. -/
structure DateT where
  year : Nat
  month : Nat
  day : Nat
  sec : Nat
deriving DecidableEq, Repr

/-- BSON-like values: documents are association lists, numbers are exact
rationals (covering Python int and float as used by the repository). -/
inductive BVal where
  | null : BVal
  | boolB : Bool → BVal
  | num : Rat → BVal
  | str : String → BVal
  | date : DateT → BVal
  | arr : List BVal → BVal
  | doc : List (String × BVal) → BVal
deriving Repr

mutual

/-- Structural equality of BSON values (MongoDB equality at the value shapes
the repository produces). -/
def BVal.beq : BVal → BVal → Bool
  | .null, .null => true
  | .boolB a, .boolB b => a == b
  | .num a, .num b => a == b
  | .str a, .str b => a == b
  | .date a, .date b => a == b
  | .arr a, .arr b => BVal.beqList a b
  | .doc a, .doc b => BVal.beqFields a b
  | _, _ => false

def BVal.beqList : List BVal → List BVal → Bool
  | [], [] => true
  | x :: xs, y :: ys => BVal.beq x y && BVal.beqList xs ys
  | _, _ => false

def BVal.beqFields : List (String × BVal) → List (String × BVal) → Bool
  | [], [] => true
  | (k1, v1) :: xs, (k2, v2) :: ys => k1 == k2 && BVal.beq v1 v2 && BVal.beqFields xs ys
  | _, _ => false

end

instance : BEq BVal := ⟨BVal.beq⟩

/-- Look up a top-level field of a document value. -/
def BVal.getField : BVal → String → Option BVal
  | .doc l, k => (l.find? (fun p => p.1 == k)).map (fun p => p.2)
  | _, _ => none

/-- Split a field path at the dots (structural recursion over the
characters, so that path lookups reduce definitionally). -/
def splitPathAux : List Char → List Char → List String
  | [], acc => [String.mk acc.reverse]
  | c :: cs, acc =>
    if c = '.' then String.mk acc.reverse :: splitPathAux cs []
    else splitPathAux cs (c :: acc)

def splitPath (s : String) : List String := splitPathAux s.data []

/-- Dotted-path lookup, as MongoDB resolves field paths. -/
def getPath (v : BVal) (p : String) : Option BVal :=
  (splitPath p).foldl (fun acc k => acc.bind (fun d => d.getField k)) (some v)

/-- Numeric view of a value ($sum, $avg and friends only see numbers). -/
def BVal.asNum : BVal → Option Rat
  | .num q => some q
  | _ => none

/-- True exactly on numbers; used to state scalar-result claims. -/
def BVal.isNum : BVal → Bool
  | .num _ => true
  | _ => false

/-- Deduplication keeping first occurrences, over any `BEq` (used for group
keys and $addToSet). -/
def dedupGo [BEq α] (seen : List α) : List α → List α
  | [] => []
  | x :: xs => if seen.any (fun y => y == x) then dedupGo seen xs
               else x :: dedupGo (x :: seen) xs

def dedupB [BEq α] (l : List α) : List α := dedupGo [] l

-- Connection constants shared by every script (etl_pipeline.py, cleanup.py,
-- aggregations.py all hard-code the same database and collection).
def DB_NAME : String := "analytics"
def COLLECTION : String := "records"
def BATCH_SIZE : Nat := 5000
def CHUNK_SIZE : Nat := 50000

/-!
Aggregation pipelines as data. The constructors below cover exactly the
stages and expression operators appearing in `dashboard/aggregations.py`;
the pipelines defined later in this file are literal translations of the
Python dictionaries.
-/

/-- The `_id` of a $group stage: `None`, a field path, or the
$dateToString expression used by the trend queries. -/
inductive GroupId where
  | gNull : GroupId
  | gPath : String → GroupId
  | gDate : String → String → GroupId
deriving Repr

/-- Group accumulators used by the source: $sum of a path, $sum of a
constant, $avg, $first, $min, $max, $addToSet. -/
inductive AccOp where
  | sumPath : String → AccOp
  | sumConst : Rat → AccOp
  | avgPath : String → AccOp
  | firstPath : String → AccOp
  | minPath : String → AccOp
  | maxPath : String → AccOp
  | addToSetPath : String → AccOp
deriving Repr

/-- The only $match filter shape the source uses:
`path: ($exists: True, $ne: v)`. -/
inductive MatchCond where
  | existsNe : String → BVal → MatchCond
deriving Repr

/-- Expressions appearing in $project / $addFields specs of the source. -/
inductive Expr where
  | pathRef : String → Expr
  | lit : BVal → Expr
  | roundE : Expr → Nat → Expr
  | divE : Expr → Expr → Expr
  | mulE : Expr → Expr → Expr
  | sizeE : Expr → Expr
  | condE : Expr → Expr → Expr → Expr
  | gteE : Expr → Expr → Expr
deriving Repr

/-- A $project entry: `none` is an exclusion (`_id: 0`), `some .inl ()` an
inclusion (`field: 1`), `some .inr e` a computed expression. -/
def ProjSpec := List (String × Option (Unit ⊕ Expr))

/-- One aggregation stage, covering the stages used in the source file. -/
inductive Stage where
  | matchS : MatchCond → Stage
  | group : GroupId → List (String × AccOp) → Stage
  | sortS : String → Int → Stage
  | limitS : Nat → Stage
  | countS : String → Stage
  | projectS : List (String × Option (Unit ⊕ Expr)) → Stage
  | addFieldsS : List (String × Expr) → Stage
  | bucketS : String → List Rat → String → List (String × AccOp) → Stage
deriving Repr

/-!
Database calls. Every interaction the repository has with the collection is
one of these; the Boolean paired with a call in a trace records whether the
server accepted it (an `insert_many` may raise, which the loaders catch).
-/

/-- One pymongo collection call, as issued by the repository scripts. -/
inductive ColCall where
  | aggregate : String → List Stage → ColCall
  | countDocuments : String → ColCall
  | insertMany : String → List BVal → Bool → ColCall
  | dropColl : String → ColCall
deriving Repr

/-- Whether a call only reads the collection. `aggregate` is a read here
because every pipeline the repository builds consists solely of read stages
(no $out / $merge anywhere in the source). -/
def ColCall.isRead : ColCall → Bool
  | .aggregate _ _ => true
  | .countDocuments _ => true
  | .insertMany _ _ _ => false
  | .dropColl _ => false

/-- Effect of one (call, accepted) pair on the collection contents. A
rejected insert contributes nothing (the loader also does not count it); a
drop empties the collection. -/
def applyCall : ColCall × Bool → List BVal → List BVal
  | (.insertMany _ docs _, true), s => s ++ docs
  | (.insertMany _ _ _, false), s => s
  | (.dropColl _, true), _ => []
  | (.dropColl _, false), s => s
  | (.aggregate _ _, _), s => s
  | (.countDocuments _, _), s => s

/-- Effect of a whole trace of calls on the collection contents. -/
def applyTrace (tr : List (ColCall × Bool)) (s : List BVal) : List BVal :=
  tr.foldl (fun s e => applyCall e s) s

/-!
Evaluator for the aggregation stages, following the documented MongoDB
semantics at the shapes the repository uses. Only results of the six KPI
pipelines enter theorems below; the remaining stages are evaluated
best-effort so that every embedded pipeline is executable.
-/

/-- Left-pad a decimal rendering with zeros. -/
def padNum (width : Nat) (n : Nat) : String :=
  let s := toString n
  if s.length < width then String.mk (List.replicate (width - s.length) '0') ++ s else s

/-- $dateToString for the two formats the source uses. -/
def fmtDate (fmt : String) (t : DateT) : String :=
  if fmt == "%Y-%m-%d" then
    padNum 4 t.year ++ "-" ++ padNum 2 t.month ++ "-" ++ padNum 2 t.day
  else if fmt == "%Y-%m" then
    padNum 4 t.year ++ "-" ++ padNum 2 t.month
  else ""

/-- Does a document satisfy the $match condition. The source always pairs
$exists with $ne, so a missing field never matches. -/
def matchesCond (c : MatchCond) (d : BVal) : Bool :=
  match c with
  | .existsNe p v =>
    match getPath d p with
    | none => false
    | some x => !(x == v)

/-- The group key of a document under a $group `_id` spec. -/
def groupKey (g : GroupId) (d : BVal) : BVal :=
  match g with
  | .gNull => .null
  | .gPath p => (getPath d p).getD .null
  | .gDate fmt p =>
    match getPath d p with
    | some (.date t) => .str (fmtDate fmt t)
    | _ => .null

/-- Numeric values of a path across a list of documents; $sum and $avg skip
documents where the field is missing or non-numeric. -/
def numsAt (p : String) (ds : List BVal) : List Rat :=
  ds.filterMap (fun d => (getPath d p).bind BVal.asNum)

/-- Evaluate one accumulator over the members of a group. `$first`, `$min`
and `$max` yield null when no value is present (MongoDB would omit the
field; none of those cases is relied on by any theorem). -/
def accEval (a : AccOp) (ds : List BVal) : BVal :=
  match a with
  | .sumPath p => .num (numsAt p ds).sum
  | .sumConst c => .num (c * ds.length)
  | .avgPath p =>
    let vs := numsAt p ds
    if vs.isEmpty then .null else .num (vs.sum / vs.length)
  | .firstPath p =>
    match ds with
    | [] => .null
    | d :: _ => (getPath d p).getD .null
  | .minPath p =>
    match (numsAt p ds).min? with
    | some q => .num q
    | none => .null
  | .maxPath p =>
    match (numsAt p ds).max? with
    | some q => .num q
    | none => .null
  | .addToSetPath p => .arr (dedupB (ds.filterMap (fun d => getPath d p)))

/-- Output document of one group. -/
def groupDoc (accs : List (String × AccOp)) (key : BVal) (members : List BVal) : BVal :=
  .doc (("_id", key) :: accs.map (fun pa => (pa.1, accEval pa.2 members)))

/-- $group: one output document per distinct key, keys in first-occurrence
order (MongoDB leaves group order unspecified; no theorem depends on it). -/
def groupEval (g : GroupId) (accs : List (String × AccOp)) (s : List BVal) : List BVal :=
  (dedupB (s.map (groupKey g))).map
    (fun k => groupDoc accs k (s.filter (fun d => groupKey g d == k)))

/-- Type rank for cross-type comparison. -/
def BVal.rank : BVal → Nat
  | .null => 0
  | .num _ => 1
  | .str _ => 2
  | .doc _ => 3
  | .arr _ => 4
  | .boolB _ => 5
  | .date _ => 6

mutual

/-- BSON comparison order restricted to the value shapes of this model:
null < numbers < strings < documents < arrays < booleans < dates. -/
def bcompare : BVal → BVal → Ordering
  | .null, .null => .eq
  | .num a, .num b => compare a b
  | .str a, .str b => compare a b
  | .boolB a, .boolB b => compare a b
  | .date a, .date b =>
    ((compare a.year b.year).then ((compare a.month b.month).then
      ((compare a.day b.day).then (compare a.sec b.sec))))
  | .arr a, .arr b => bcompareList a b
  | .doc a, .doc b => bcompareFields a b
  | a, b => compare (BVal.rank a) (BVal.rank b)

def bcompareList : List BVal → List BVal → Ordering
  | [], [] => .eq
  | [], _ :: _ => .lt
  | _ :: _, [] => .gt
  | x :: xs, y :: ys =>
    match bcompare x y with
    | .eq => bcompareList xs ys
    | o => o

def bcompareFields : List (String × BVal) → List (String × BVal) → Ordering
  | [], [] => .eq
  | [], _ :: _ => .lt
  | _ :: _, [] => .gt
  | (k1, v1) :: xs, (k2, v2) :: ys =>
    match compare k1 k2 with
    | .eq =>
      match bcompare v1 v2 with
      | .eq => bcompareFields xs ys
      | o => o
    | o => o

end

/-- Sort key of a document: a missing field sorts like null. -/
def sortKeyVal (k : String) (d : BVal) : BVal := (getPath d k).getD .null

/-- Stable insertion of one element into a sorted list. -/
def insertSorted (le : α → α → Bool) (x : α) : List α → List α
  | [] => [x]
  | y :: ys => if le x y then x :: y :: ys else y :: insertSorted le x ys

/-- Stable insertion sort (MongoDB sort is stable per document order). -/
def sortBy (le : α → α → Bool) : List α → List α
  | [] => []
  | x :: xs => insertSorted le x (sortBy le xs)

/-- $sort by one key with direction 1 or -1, as the source always does. -/
def sortEval (k : String) (dir : Int) (s : List BVal) : List BVal :=
  let le := fun d1 d2 =>
    match bcompare (sortKeyVal k d1) (sortKeyVal k d2) with
    | .lt => dir ≥ 0
    | .eq => true
    | .gt => dir < 0
  sortBy le s

/-- Round a rational to an integer, half to even, as MongoDB $round does. -/
def roundHalfEven (q : Rat) : Int :=
  let f := q.floor
  let frac := q - f
  if frac < 1/2 then f
  else if 1/2 < frac then f + 1
  else if f % 2 = 0 then f else f + 1

/-- $round to `d` decimal places. -/
def roundToPlaces (d : Nat) (q : Rat) : Rat :=
  (roundHalfEven (q * (10 : Rat) ^ d) : Rat) / (10 : Rat) ^ d

/-- Evaluate a $project / $addFields expression against a document.
Non-numeric operands of arithmetic operators yield null (MongoDB would
error; the repository never hits that case and no theorem depends on it). -/
def evalExpr (d : BVal) : Expr → BVal
  | .pathRef p => (getPath d p).getD .null
  | .lit v => v
  | .roundE e dg =>
    match (evalExpr d e).asNum with
    | some q => .num (roundToPlaces dg q)
    | none => .null
  | .divE a b =>
    match (evalExpr d a).asNum, (evalExpr d b).asNum with
    | some x, some y => if y == 0 then .null else .num (x / y)
    | _, _ => .null
  | .mulE a b =>
    match (evalExpr d a).asNum, (evalExpr d b).asNum with
    | some x, some y => .num (x * y)
    | _, _ => .null
  | .sizeE e =>
    match evalExpr d e with
    | .arr l => .num l.length
    | _ => .null
  | .condE c t e => if evalExpr d c == .boolB true then evalExpr d t else evalExpr d e
  | .gteE a b =>
    .boolB (match bcompare (evalExpr d a) (evalExpr d b) with
            | .lt => false
            | _ => true)

/-- $project applied to one document. -/
def projectDoc (spec : List (String × Option (Unit ⊕ Expr))) (d : BVal) : BVal :=
  .doc (spec.filterMap (fun ke =>
    match ke.2 with
    | none => none
    | some (.inl _) => (getPath d ke.1).map (fun v => (ke.1, v))
    | some (.inr e) => some (ke.1, evalExpr d e)))

/-- $addFields applied to one document (new fields appended). -/
def addFieldsDoc (spec : List (String × Expr)) (d : BVal) : BVal :=
  match d with
  | .doc fs => .doc (fs ++ spec.map (fun ke => (ke.1, evalExpr d ke.2)))
  | other => other

/-- Bucket key of a document: the lower boundary of the half-open interval
containing its groupBy value, or the default otherwise. -/
def bucketKey (p : String) (bounds : List Rat) (dflt : String) (d : BVal) : BVal :=
  match (getPath d p).bind BVal.asNum with
  | none => .str dflt
  | some q =>
    match (bounds.zip bounds.tail).find? (fun lh => decide (lh.1 ≤ q ∧ q < lh.2)) with
    | some lh => .num lh.1
    | none => .str dflt

/-- $bucket: group by bucket key; empty buckets are omitted, buckets appear
in boundary order with the default bucket last. -/
def bucketEval (p : String) (bounds : List Rat) (dflt : String)
    (output : List (String × AccOp)) (s : List BVal) : List BVal :=
  let keys := (bounds.dropLast.map BVal.num) ++ [BVal.str dflt]
  keys.filterMap (fun k =>
    let members := s.filter (fun d => bucketKey p bounds dflt d == k)
    if members.isEmpty then none else some (groupDoc output k members))

/-- Evaluate one aggregation stage. $count emits no document on empty
input, which is what makes the Python `result[0] if result else 0` idiom
return 0 on an empty collection. -/
def applyStage (st : Stage) (s : List BVal) : List BVal :=
  match st with
  | .matchS c => s.filter (matchesCond c)
  | .group g accs => groupEval g accs s
  | .sortS k dir => sortEval k dir s
  | .limitS n => s.take n
  | .countS name => if s.isEmpty then [] else [.doc [(name, .num s.length)]]
  | .projectS spec => s.map (projectDoc spec)
  | .addFieldsS spec => s.map (addFieldsDoc spec)
  | .bucketS p bounds dflt output => bucketEval p bounds dflt output s

/-- Evaluate a whole pipeline left to right. -/
def Pipeline.eval (p : List Stage) (s : List BVal) : List BVal :=
  p.foldl (fun s st => applyStage st s) s

/-!
The ETL loaders (scripts/etl_pipeline.py). A CSV row is modelled as the
already-parsed record pandas hands to the loop body; `none` stands for a
missing column or a NaN cell, so the `.get(key, default)` and
`pd.notna` branches of the source map onto `Option.getD`.
-/

/-- A row of `data/online_retail.csv` as read by `load_csv_source1`.
`InvoiceDate` is accessed with brackets (no default) in the source, so it
is a required field here. -/
structure Row1 where
  invoiceNo : Option String
  stockCode : Option String
  description : Option String
  quantity : Option Int
  invoiceDate : DateT
  unitPrice : Option Rat
  customerID : Option String
  country : Option String
deriving Repr

/-- A row of `data/sales_data.csv` as read by `load_csv_source2`. -/
structure Row2 where
  saleId : Option String
  date : Option DateT
  customerId : Option String
  amount : Option Rat
  product : Option String
  category : Option String
  region : Option String
deriving Repr

/-- A row of `data/customers.csv` as read by `load_csv_source3`. -/
structure Row3 where
  customerId : Option String
  totalPurchases : Option Rat
  avgOrderValue : Option Rat
  name : Option String
  email : Option String
  city : Option String
  country : Option String
  signupDate : Option String
deriving Repr

/-- The document `load_csv_source1` builds from one row (`now` is the
`datetime.now(timezone.utc)` value used for `ingestedAt`). -/
def buildDoc1 (now : DateT) (r : Row1) : BVal :=
  let quantity : Int := r.quantity.getD 0
  let unitPrice : Rat := r.unitPrice.getD 0
  .doc [
    ("schemaVersion", .num 1),
    ("source", .doc [
      ("name", .str "kaggle_csv"),
      ("type", .str "csv"),
      ("sourceId", .str "source1"),
      ("externalId", .str (r.invoiceNo.getD ""))]),
    ("ingestedAt", .date now),
    ("eventTime", .date r.invoiceDate),
    ("entity", .doc [
      ("id", .str (r.customerID.getD "UNKNOWN")),
      ("type", .str "customer")]),
    ("metrics", .doc [
      ("amount", .num (unitPrice * quantity)),
      ("count", .num quantity),
      ("unitPrice", .num unitPrice)]),
    ("metadata", .doc [
      ("description", .str (r.description.getD "")),
      ("stockCode", .str (r.stockCode.getD "")),
      ("country", .str (r.country.getD ""))])]

/-- The document `load_csv_source2` builds from the row at position `idx`
(the dataframe index is the `externalId` fallback). -/
def buildDoc2 (now : DateT) (idx : Nat) (r : Row2) : BVal :=
  let amount : Rat := r.amount.getD 0
  .doc [
    ("schemaVersion", .num 1),
    ("source", .doc [
      ("name", .str "sales_csv"),
      ("type", .str "csv"),
      ("sourceId", .str "source2"),
      ("externalId", .str (r.saleId.getD (toString idx)))]),
    ("ingestedAt", .date now),
    ("eventTime", .date (r.date.getD now)),
    ("entity", .doc [
      ("id", .str (r.customerId.getD "UNKNOWN")),
      ("type", .str "customer")]),
    ("metrics", .doc [
      ("amount", .num amount),
      ("count", .num 1)]),
    ("metadata", .doc [
      ("product", .str (r.product.getD "")),
      ("category", .str (r.category.getD "")),
      ("region", .str (r.region.getD ""))])]

/-- The document `load_csv_source3` builds from the row at position `idx`.
Its metrics carry no `amount`/`count` fields. -/
def buildDoc3 (now : DateT) (idx : Nat) (r : Row3) : BVal :=
  .doc [
    ("schemaVersion", .num 1),
    ("source", .doc [
      ("name", .str "customers_csv"),
      ("type", .str "csv"),
      ("sourceId", .str "source3"),
      ("externalId", .str (r.customerId.getD (toString idx)))]),
    ("ingestedAt", .date now),
    ("eventTime", .date now),
    ("entity", .doc [
      ("id", .str (r.customerId.getD "UNKNOWN")),
      ("type", .str "customer")]),
    ("metrics", .doc [
      ("totalPurchases", .num (r.totalPurchases.getD 0)),
      ("averageOrderValue", .num (r.avgOrderValue.getD 0))]),
    ("metadata", .doc [
      ("name", .str (r.name.getD "")),
      ("email", .str (r.email.getD "")),
      ("city", .str (r.city.getD "")),
      ("country", .str (r.country.getD "")),
      ("signup_date", .str (r.signupDate.getD ""))])]

/-- Split a list into consecutive chunks of size `n` (the
`range(0, len(docs), BATCH_SIZE)` slicing of the source). -/
def chunksOf (n : Nat) (l : List α) : List (List α) :=
  match n, l with
  | _, [] => []
  | 0, l => [l]
  | m + 1, x :: xs =>
    have : (List.drop (m + 1) (x :: xs)).length < (x :: xs).length := by
      simp
      omega
    ((x :: xs).take (m + 1)) :: chunksOf (m + 1) ((x :: xs).drop (m + 1))
termination_by l.length

/-- The shared batch-insert loop of the three loaders: for each nonempty
batch, attempt `insert_many(batch, ordered=False)`; on success add the
batch size to the running total, on an exception print and continue with
the next batch. Returns (total_inserted, call trace, final collection).
`ok i` tells whether the insert of batch number `i` succeeds. -/
def insertBatches (ok : Nat → Bool) : Nat → List (List BVal) → List BVal →
    Nat × List (ColCall × Bool) × List BVal
  | _, [], st => (0, [], st)
  | i, b :: bs, st =>
    if b.isEmpty then insertBatches ok (i + 1) bs st
    else
      let succ := ok i
      let st1 := if succ then st ++ b else st
      let rest := insertBatches ok (i + 1) bs st1
      ((if succ then b.length else 0) + rest.1,
       (ColCall.insertMany COLLECTION b false, succ) :: rest.2.1,
       rest.2.2)

/-- `load_csv_source1`: reads the CSV in chunks of `CHUNK_SIZE` rows, maps
each row through `buildDoc1`, and inserts each nonempty chunk with
`insert_many(docs, ordered=False)` inside a per-chunk try/except. Returns 0
and touches nothing when the file does not exist. -/
def load_csv_source1 (fileExists : Bool) (now : DateT) (ok : Nat → Bool)
    (chunks : List (List Row1)) (st : List BVal) :
    Nat × List (ColCall × Bool) × List BVal :=
  if fileExists then
    insertBatches ok 0 (chunks.map (fun c => c.map (buildDoc1 now))) st
  else (0, [], st)

/-- `load_csv_source2`: reads the whole CSV, builds one document per row
(with its positional index), and inserts slices of `BATCH_SIZE` documents,
each inside a try/except. `readOk` models the outer try around
`pd.read_csv`; when it fails the function returns 0 having inserted
nothing. -/
def load_csv_source2 (fileExists readOk : Bool) (now : DateT) (ok : Nat → Bool)
    (rows : List Row2) (st : List BVal) :
    Nat × List (ColCall × Bool) × List BVal :=
  if fileExists then
    if readOk then
      insertBatches ok 0
        (chunksOf BATCH_SIZE (rows.enum.map (fun p => buildDoc2 now p.1 p.2))) st
    else (0, [], st)
  else (0, [], st)

/-- `load_csv_source3`: same structure as `load_csv_source2` with the
customer-row document builder. -/
def load_csv_source3 (fileExists readOk : Bool) (now : DateT) (ok : Nat → Bool)
    (rows : List Row3) (st : List BVal) :
    Nat × List (ColCall × Bool) × List BVal :=
  if fileExists then
    if readOk then
      insertBatches ok 0
        (chunksOf BATCH_SIZE (rows.enum.map (fun p => buildDoc3 now p.1 p.2))) st
    else (0, [], st)
  else (0, [], st)

/-- `run_etl`: the three loaders in sequence against the same collection;
returns the grand total and the final collection contents. -/
def run_etl (now : DateT) (ok1 ok2 ok3 : Nat → Bool)
    (chunks1 : List (List Row1)) (rows2 : List Row2) (rows3 : List Row3)
    (st : List BVal) : Nat × List BVal :=
  let r1 := load_csv_source1 true now ok1 chunks1 st
  let r2 := load_csv_source2 true true now ok2 rows2 r1.2.2
  let r3 := load_csv_source3 true true now ok3 rows3 r2.2.2
  (r1.1 + r2.1 + r3.1, r3.2.2)

/-!
The cleanup script (scripts/cleanup.py).
-/

/-- ASCII uppercasing of one character (Python str.upper at the ASCII
range the script compares against). -/
def charUpper (c : Char) : Char :=
  if 'a' ≤ c && c ≤ 'z' then Char.ofNat (c.toNat - 32) else c

/-- ASCII uppercasing of a string, modelling `response.upper()`. -/
def upperAscii (s : String) : String := String.mk (s.data.map charUpper)

/-- `cleanup_duplicates`: counts the documents, asks for confirmation, and
drops the collection exactly when the uppercased response is TAK; any other
response prints Anulowano and leaves the collection alone. Returns
(call trace, final collection, printed messages). -/
def cleanup_duplicates (response : String) (st : List BVal) :
    List (ColCall × Bool) × List BVal × List String :=
  let header := ["Czyszczenie duplikatow...",
                 "Dokumenty przed: " ++ toString st.length,
                 "Czy chcesz usunac cala kolekcje?"]
  if upperAscii response == "TAK" then
    ([(ColCall.countDocuments COLLECTION, true), (ColCall.dropColl COLLECTION, true)],
     [],
     header ++ ["Kolekcja usunieta - zwolniono miejsce!",
                "Teraz uruchom:",
                "  python scripts/etl_pipeline.py"])
  else
    ([(ColCall.countDocuments COLLECTION, true)],
     st,
     header ++ ["Anulowano"])

/-!
The scheduler (scripts/scheduler.py). Time is seconds; the loop calls
`schedule.run_pending()` and sleeps 60 seconds forever. The schedule
library runs a daily job when the current time has reached its `next_run`
and then reschedules it for the same time of day on the next day; since
the loop polls every 60 seconds, the run always happens within 60 seconds
of the scheduled moment and the reschedule lands exactly one day after the
originally scheduled moment.
-/

def SECONDS_PER_DAY : Nat := 86400

def SLEEP_SECONDS : Nat := 60

/-- The only command the scheduler ever executes
(`subprocess.run(['python', 'scripts/etl_pipeline.py'])` in `run_etl`). -/
def loaderCmd : List String := ["python", "scripts/etl_pipeline.py"]

/-- Scheduler loop state: current time and the pending next run time of the
single daily job. -/
structure SchedState where
  now : Nat
  nextRun : Nat
deriving Repr

/-- One loop iteration: `schedule.run_pending()` followed by
`time.sleep(60)`. Fires the job when its time has come. -/
def schedulerTick (s : SchedState) : Option (List String) × SchedState :=
  if s.nextRun ≤ s.now then
    (some loaderCmd, ⟨s.now + SLEEP_SECONDS, s.nextRun + SECONDS_PER_DAY⟩)
  else
    (none, ⟨s.now + SLEEP_SECONDS, s.nextRun⟩)

/-- Run the loop for `fuel` iterations, collecting (time, command) events. -/
def schedulerLoop : Nat → SchedState → List (Nat × List String)
  | 0, _ => []
  | fuel + 1, s =>
    match schedulerTick s with
    | (some c, s2) => (s.now, c) :: schedulerLoop fuel s2
    | (none, s2) => schedulerLoop fuel s2

/-- `schedule.every().day.at(T)`: the first run is the next occurrence of
the configured time of day `sT` at or after the start time `t0`. -/
def initialNextRun (t0 sT : Nat) : Nat :=
  if t0 % SECONDS_PER_DAY ≤ sT then t0 - t0 % SECONDS_PER_DAY + sT
  else t0 - t0 % SECONDS_PER_DAY + SECONDS_PER_DAY + sT

/-!
The aggregation layer (dashboard/aggregations.py): the class holds only
the connection handles set in `__init__` (URI, database name, collection
name); no method ever assigns to `self`, so the object is modelled as an
immutable record and every method as a pure function of the collection
contents and its arguments, returning its result together with the trace
of collection calls it issues.
-/

/-- The fields `AggregationPipelines.__init__` sets (connection handles). -/
structure AggregationPipelines where
  dbName : String
  collName : String
deriving Repr

/-- The object built by `AggregationPipelines()`. -/
def AggregationPipelines.init : AggregationPipelines := ⟨DB_NAME, COLLECTION⟩

-- The twelve pipelines of the source, as literal translations.

def kpiTotalRevenuePipeline : List Stage :=
  [.group .gNull [("total", .sumPath "metrics.amount")]]

def kpiUniqueCustomersPipeline : List Stage :=
  [.group (.gPath "entity.id") [], .countS "count"]

def kpiAverageOrderValuePipeline : List Stage :=
  [.group .gNull [("avg_value", .avgPath "metrics.amount")]]

def kpiTotalItemsSoldPipeline : List Stage :=
  [.group .gNull [("total_items", .sumPath "metrics.count")]]

def kpiUniqueCountriesPipeline : List Stage :=
  [.matchS (.existsNe "metadata.country" (.str "")),
   .group (.gPath "metadata.country") [],
   .countS "count"]

def topProductsPipeline (limit : Nat) : List Stage :=
  [.matchS (.existsNe "metadata.stockCode" (.str "")),
   .group (.gPath "metadata.stockCode")
     [("product_name", .firstPath "metadata.description"),
      ("revenue", .sumPath "metrics.amount"),
      ("quantity", .sumPath "metrics.count"),
      ("orders", .sumConst 1)],
   .sortS "revenue" (-1),
   .limitS limit,
   .projectS
     [("_id", none),
      ("stock_code", some (.inr (.pathRef "_id"))),
      ("product_name", some (.inl ())),
      ("revenue", some (.inr (.roundE (.pathRef "revenue") 2))),
      ("quantity", some (.inl ())),
      ("orders", some (.inl ())),
      ("avg_price", some (.inr (.roundE (.divE (.pathRef "revenue") (.pathRef "quantity")) 2)))]]

def topCountriesPipeline (limit : Nat) : List Stage :=
  [.matchS (.existsNe "metadata.country" (.str "")),
   .group (.gPath "metadata.country")
     [("revenue", .sumPath "metrics.amount"),
      ("orders", .sumConst 1),
      ("customers", .addToSetPath "entity.id")],
   .sortS "revenue" (-1),
   .limitS limit,
   .projectS
     [("_id", none),
      ("country", some (.inr (.pathRef "_id"))),
      ("revenue", some (.inr (.roundE (.pathRef "revenue") 2))),
      ("orders", some (.inl ())),
      ("unique_customers", some (.inr (.sizeE (.pathRef "customers"))))]]

def topCustomersPipeline (limit : Nat) : List Stage :=
  [.group (.gPath "entity.id")
     [("revenue", .sumPath "metrics.amount"),
      ("orders", .sumConst 1),
      ("items", .sumPath "metrics.count"),
      ("countries", .addToSetPath "metadata.country")],
   .sortS "revenue" (-1),
   .limitS limit,
   .projectS
     [("_id", none),
      ("customer_id", some (.inr (.pathRef "_id"))),
      ("revenue", some (.inr (.roundE (.pathRef "revenue") 2))),
      ("orders", some (.inl ())),
      ("items", some (.inl ())),
      ("avg_order_value", some (.inr (.roundE (.divE (.pathRef "revenue") (.pathRef "orders")) 2))),
      ("countries", some (.inl ()))]]

def dailyRevenuePipeline : List Stage :=
  [.group (.gDate "%Y-%m-%d" "eventTime")
     [("revenue", .sumPath "metrics.amount"),
      ("orders", .sumConst 1)],
   .sortS "_id" 1,
   .limitS 365,
   .projectS
     [("_id", none),
      ("date", some (.inr (.pathRef "_id"))),
      ("revenue", some (.inr (.roundE (.pathRef "revenue") 2))),
      ("orders", some (.inl ()))]]

def monthlyRevenuePipeline : List Stage :=
  [.group (.gDate "%Y-%m" "eventTime")
     [("revenue", .sumPath "metrics.amount"),
      ("orders", .sumConst 1),
      ("customers", .addToSetPath "entity.id")],
   .sortS "_id" 1,
   .projectS
     [("_id", none),
      ("month", some (.inr (.pathRef "_id"))),
      ("revenue", some (.inr (.roundE (.pathRef "revenue") 2))),
      ("orders", some (.inl ())),
      ("customers", some (.inr (.sizeE (.pathRef "customers"))))]]

def revenueBySourcePipeline : List Stage :=
  [.group (.gPath "source.sourceId")
     [("revenue", .sumPath "metrics.amount"),
      ("orders", .sumConst 1),
      ("avg_order", .avgPath "metrics.amount")],
   .sortS "revenue" (-1),
   .projectS
     [("_id", none),
      ("source", some (.inr (.pathRef "_id"))),
      ("revenue", some (.inr (.roundE (.pathRef "revenue") 2))),
      ("orders", some (.inl ())),
      ("avg_order", some (.inr (.roundE (.pathRef "avg_order") 2)))]]

def customersByCountryPipeline : List Stage :=
  [.matchS (.existsNe "metadata.country" (.str "")),
   .group (.gPath "metadata.country")
     [("customers", .addToSetPath "entity.id")],
   .projectS
     [("_id", none),
      ("country", some (.inr (.pathRef "_id"))),
      ("customer_count", some (.inr (.sizeE (.pathRef "customers"))))],
   .sortS "customer_count" (-1)]

def orderValueDistributionPipeline : List Stage :=
  [.bucketS "metrics.amount" [0, 10, 50, 100, 500, 10000] "other"
     [("count", .sumConst 1),
      ("avg", .avgPath "metrics.amount"),
      ("total", .sumPath "metrics.amount")],
   .projectS
     [("_id", none),
      ("range", some (.inr (.pathRef "_id"))),
      ("count", some (.inl ())),
      ("avg", some (.inr (.roundE (.pathRef "avg") 2))),
      ("total", some (.inr (.roundE (.pathRef "total") 2)))]]

def customerSegmentationPipeline : List Stage :=
  [.group (.gPath "entity.id")
     [("revenue", .sumPath "metrics.amount"),
      ("orders", .sumConst 1),
      ("first_order", .minPath "eventTime"),
      ("last_order", .maxPath "eventTime")],
   .addFieldsS
     [("segment",
       .condE (.gteE (.pathRef "revenue") (.lit (.num 1000)))
         (.lit (.str "VIP"))
         (.condE (.gteE (.pathRef "revenue") (.lit (.num 100)))
           (.lit (.str "Regular"))
           (.lit (.str "New"))))],
   .group (.gPath "segment")
     [("customer_count", .sumConst 1),
      ("total_revenue", .sumPath "revenue"),
      ("avg_revenue", .avgPath "revenue")],
   .projectS
     [("_id", none),
      ("segment", some (.inr (.pathRef "_id"))),
      ("customers", some (.inr (.pathRef "customer_count"))),
      ("revenue", some (.inr (.roundE (.pathRef "total_revenue") 2))),
      ("avg_per_customer", some (.inr (.roundE (.pathRef "avg_revenue") 2)))]]

def productPerformancePipeline : List Stage :=
  [.matchS (.existsNe "metadata.stockCode" (.str "")),
   .group (.gPath "metadata.stockCode")
     [("description", .firstPath "metadata.description"),
      ("total_revenue", .sumPath "metrics.amount"),
      ("total_quantity", .sumPath "metrics.count"),
      ("avg_price", .avgPath "metrics.unitPrice"),
      ("orders", .sumConst 1)],
   .addFieldsS
     [("turnover",
       .mulE (.divE (.pathRef "total_quantity") (.lit (.num 365))) (.pathRef "avg_price"))],
   .sortS "total_revenue" (-1),
   .limitS 20,
   .projectS
     [("_id", none),
      ("stock_code", some (.inr (.pathRef "_id"))),
      ("description", some (.inl ())),
      ("revenue", some (.inr (.roundE (.pathRef "total_revenue") 2))),
      ("quantity", some (.inr (.pathRef "total_quantity"))),
      ("orders", some (.inl ())),
      ("avg_price", some (.inr (.roundE (.pathRef "avg_price") 2))),
      ("turnover", some (.inr (.roundE (.pathRef "turnover") 2)))]]

/-!
The methods of `AggregationPipelines`. Each returns its Python return value
(as a `BVal` or a list of result documents) together with the trace of
collection calls it issued. No method assigns to `self`, so no method
returns a modified object; determinism is immediate from the methods being
functions of `(self, collection contents, arguments)`.
-/

/-- `kpi_total_revenue`: one aggregate; `result[0]['total'] if result
else 0`. -/
def AggregationPipelines.kpi_total_revenue (self : AggregationPipelines)
    (st : List BVal) : BVal × List (ColCall × Bool) :=
  let result := Pipeline.eval kpiTotalRevenuePipeline st
  (match result with
   | [] => .num 0
   | d :: _ => (d.getField "total").getD .null,
   [(ColCall.aggregate self.collName kpiTotalRevenuePipeline, true)])

/-- `kpi_total_orders`: `count_documents(\x7b\x7d)`. -/
def AggregationPipelines.kpi_total_orders (self : AggregationPipelines)
    (st : List BVal) : BVal × List (ColCall × Bool) :=
  (.num st.length, [(ColCall.countDocuments self.collName, true)])

/-- `kpi_unique_customers`: one aggregate; `result[0]['count'] if result
else 0`. -/
def AggregationPipelines.kpi_unique_customers (self : AggregationPipelines)
    (st : List BVal) : BVal × List (ColCall × Bool) :=
  let result := Pipeline.eval kpiUniqueCustomersPipeline st
  (match result with
   | [] => .num 0
   | d :: _ => (d.getField "count").getD .null,
   [(ColCall.aggregate self.collName kpiUniqueCustomersPipeline, true)])

/-- `kpi_average_order_value`: one aggregate; `result[0]['avg_value'] if
result else 0`. -/
def AggregationPipelines.kpi_average_order_value (self : AggregationPipelines)
    (st : List BVal) : BVal × List (ColCall × Bool) :=
  let result := Pipeline.eval kpiAverageOrderValuePipeline st
  (match result with
   | [] => .num 0
   | d :: _ => (d.getField "avg_value").getD .null,
   [(ColCall.aggregate self.collName kpiAverageOrderValuePipeline, true)])

/-- `kpi_total_items_sold`: one aggregate; `result[0]['total_items'] if
result else 0`. -/
def AggregationPipelines.kpi_total_items_sold (self : AggregationPipelines)
    (st : List BVal) : BVal × List (ColCall × Bool) :=
  let result := Pipeline.eval kpiTotalItemsSoldPipeline st
  (match result with
   | [] => .num 0
   | d :: _ => (d.getField "total_items").getD .null,
   [(ColCall.aggregate self.collName kpiTotalItemsSoldPipeline, true)])

/-- `kpi_unique_countries`: one aggregate; `result[0]['count'] if result
else 0`. -/
def AggregationPipelines.kpi_unique_countries (self : AggregationPipelines)
    (st : List BVal) : BVal × List (ColCall × Bool) :=
  let result := Pipeline.eval kpiUniqueCountriesPipeline st
  (match result with
   | [] => .num 0
   | d :: _ => (d.getField "count").getD .null,
   [(ColCall.aggregate self.collName kpiUniqueCountriesPipeline, true)])

/-- `top_products(limit)`. -/
def AggregationPipelines.top_products (self : AggregationPipelines)
    (st : List BVal) (limit : Nat) : List BVal × List (ColCall × Bool) :=
  (Pipeline.eval (topProductsPipeline limit) st,
   [(ColCall.aggregate self.collName (topProductsPipeline limit), true)])

/-- `top_countries(limit)`. -/
def AggregationPipelines.top_countries (self : AggregationPipelines)
    (st : List BVal) (limit : Nat) : List BVal × List (ColCall × Bool) :=
  (Pipeline.eval (topCountriesPipeline limit) st,
   [(ColCall.aggregate self.collName (topCountriesPipeline limit), true)])

/-- `top_customers(limit)`. -/
def AggregationPipelines.top_customers (self : AggregationPipelines)
    (st : List BVal) (limit : Nat) : List BVal × List (ColCall × Bool) :=
  (Pipeline.eval (topCustomersPipeline limit) st,
   [(ColCall.aggregate self.collName (topCustomersPipeline limit), true)])

/-- `daily_revenue()`. -/
def AggregationPipelines.daily_revenue (self : AggregationPipelines)
    (st : List BVal) : List BVal × List (ColCall × Bool) :=
  (Pipeline.eval dailyRevenuePipeline st,
   [(ColCall.aggregate self.collName dailyRevenuePipeline, true)])

/-- `monthly_revenue()`. -/
def AggregationPipelines.monthly_revenue (self : AggregationPipelines)
    (st : List BVal) : List BVal × List (ColCall × Bool) :=
  (Pipeline.eval monthlyRevenuePipeline st,
   [(ColCall.aggregate self.collName monthlyRevenuePipeline, true)])

/-- `revenue_by_source()`. -/
def AggregationPipelines.revenue_by_source (self : AggregationPipelines)
    (st : List BVal) : List BVal × List (ColCall × Bool) :=
  (Pipeline.eval revenueBySourcePipeline st,
   [(ColCall.aggregate self.collName revenueBySourcePipeline, true)])

/-- `customers_by_country()`. -/
def AggregationPipelines.customers_by_country (self : AggregationPipelines)
    (st : List BVal) : List BVal × List (ColCall × Bool) :=
  (Pipeline.eval customersByCountryPipeline st,
   [(ColCall.aggregate self.collName customersByCountryPipeline, true)])

/-- `order_value_distribution(buckets)` (the `buckets` argument is unused
by the source body). -/
def AggregationPipelines.order_value_distribution (self : AggregationPipelines)
    (st : List BVal) : List BVal × List (ColCall × Bool) :=
  (Pipeline.eval orderValueDistributionPipeline st,
   [(ColCall.aggregate self.collName orderValueDistributionPipeline, true)])

/-- `customer_segmentation()`. -/
def AggregationPipelines.customer_segmentation (self : AggregationPipelines)
    (st : List BVal) : List BVal × List (ColCall × Bool) :=
  (Pipeline.eval customerSegmentationPipeline st,
   [(ColCall.aggregate self.collName customerSegmentationPipeline, true)])

/-- `product_performance()`. -/
def AggregationPipelines.product_performance (self : AggregationPipelines)
    (st : List BVal) : List BVal × List (ColCall × Bool) :=
  (Pipeline.eval productPerformancePipeline st,
   [(ColCall.aggregate self.collName productPerformancePipeline, true)])

/-- `get_all_kpi`: the six KPI methods in order, results keyed as in the
source dictionary; the trace is the concatenation of their traces. -/
def AggregationPipelines.get_all_kpi (self : AggregationPipelines)
    (st : List BVal) : List (String × BVal) × List (ColCall × Bool) :=
  let r1 := self.kpi_total_revenue st
  let r2 := self.kpi_total_orders st
  let r3 := self.kpi_unique_customers st
  let r4 := self.kpi_average_order_value st
  let r5 := self.kpi_total_items_sold st
  let r6 := self.kpi_unique_countries st
  ([("total_revenue", r1.1), ("total_orders", r2.1),
    ("unique_customers", r3.1), ("average_order_value", r4.1),
    ("total_items_sold", r5.1), ("unique_countries", r6.1)],
   r1.2 ++ r2.2 ++ r3.2 ++ r4.2 ++ r5.2 ++ r6.2)

/-- `get_all_aggregations`: the ten list-valued queries with their source
default arguments. -/
def AggregationPipelines.get_all_aggregations (self : AggregationPipelines)
    (st : List BVal) : List (String × List BVal) × List (ColCall × Bool) :=
  let r1 := self.top_products st 10
  let r2 := self.top_countries st 10
  let r3 := self.top_customers st 10
  let r4 := self.daily_revenue st
  let r5 := self.monthly_revenue st
  let r6 := self.revenue_by_source st
  let r7 := self.customers_by_country st
  let r8 := self.order_value_distribution st
  let r9 := self.customer_segmentation st
  let r10 := self.product_performance st
  ([("top_products", r1.1), ("top_countries", r2.1), ("top_customers", r3.1),
    ("daily_revenue", r4.1), ("monthly_revenue", r5.1),
    ("revenue_by_source", r6.1), ("customers_by_country", r7.1),
    ("order_value_distribution", r8.1), ("customer_segmentation", r9.1),
    ("product_performance", r10.1)],
   r1.2 ++ r2.2 ++ r3.2 ++ r4.2 ++ r5.2 ++ r6.2 ++ r7.2 ++ r8.2 ++ r9.2 ++ r10.2)

/-!
Helper lemmas about the batching loop and the group stage, shared by the
claim theorems.
-/

theorem chunksOf_nil {α : Type _} (n : Nat) : chunksOf n ([] : List α) = [] := by
  rw [chunksOf]

theorem chunksOf_flatten {α : Type _} (n : Nat) (l : List α) : (chunksOf n l).flatten = l := by
  induction n, l using chunksOf.induct with
  | case1 => simp [chunksOf]
  | case2 l => simp [chunksOf]
  | case3 m x xs hlt ih =>
    rw [chunksOf]
    simp only [List.flatten_cons]
    rw [ih]
    exact List.take_append_drop _ _

theorem insertBatches_trace (ok : Nat → Bool) :
    ∀ (bs : List (List BVal)) (i : Nat) (st : List BVal),
      (insertBatches ok i bs st).2.1
        = ((List.enumFrom i bs).filter (fun p => !p.2.isEmpty)).map
            (fun p => (ColCall.insertMany COLLECTION p.2 false, ok p.1))
  | [], _, _ => rfl
  | b :: bs, i, st => by
    by_cases hb : b.isEmpty <;>
      simp [insertBatches, hb, List.enumFrom_cons, insertBatches_trace ok bs (i+1)]

theorem insertBatches_total (ok : Nat → Bool) :
    ∀ (bs : List (List BVal)) (i : Nat) (st : List BVal),
      (insertBatches ok i bs st).1
        = (((List.enumFrom i bs).filter (fun p => !p.2.isEmpty && ok p.1)).map
            (fun p => p.2.length)).sum
  | [], _, _ => rfl
  | b :: bs, i, st => by
    by_cases hb : b.isEmpty
    · simp [insertBatches, hb, List.enumFrom_cons, insertBatches_total ok bs (i+1)]
    · by_cases ho : ok i <;>
        simp [insertBatches, hb, ho, List.enumFrom_cons, insertBatches_total ok bs (i+1)]

theorem insertBatches_state_allOk :
    ∀ (bs : List (List BVal)) (i : Nat) (st : List BVal),
      (insertBatches (fun _ => true) i bs st).2.2 = st ++ bs.flatten
  | [], i, st => by simp [insertBatches]
  | b :: bs, i, st => by
    by_cases hb : b.isEmpty
    · have hbnil : b = [] := List.isEmpty_iff.mp hb
      subst hbnil
      simp [insertBatches, insertBatches_state_allOk bs (i+1) st]
    · simp [insertBatches, hb, insertBatches_state_allOk bs (i+1) (st ++ b)]

/-- The documents handed to `insert_many` across a trace, in order. -/
def traceInsertedDocs (tr : List (ColCall × Bool)) : List BVal :=
  (tr.filterMap (fun e =>
    match e.1 with
    | .insertMany _ docs _ => some docs
    | _ => none)).flatten

/-- A trace entry is an unordered insert into the single collection whose
documents all satisfy `P`. -/
def insertCallOk (P : BVal → Bool) (e : ColCall × Bool) : Bool :=
  match e.1 with
  | .insertMany c docs ord => (c == COLLECTION) && (!ord) && docs.all P
  | _ => false

theorem insertBatches_docs (ok : Nat → Bool) :
    ∀ (bs : List (List BVal)) (i : Nat) (st : List BVal),
      traceInsertedDocs (insertBatches ok i bs st).2.1 = bs.flatten
  | [], _, _ => rfl
  | b :: bs, i, st => by
    by_cases hb : b.isEmpty
    · have hbnil : b = [] := List.isEmpty_iff.mp hb
      subst hbnil
      simpa [insertBatches] using insertBatches_docs ok bs (i+1) st
    · by_cases ho : ok i
      · simpa [insertBatches, hb, ho, traceInsertedDocs]
          using insertBatches_docs ok bs (i+1) (st ++ b)
      · simpa [insertBatches, hb, ho, traceInsertedDocs]
          using insertBatches_docs ok bs (i+1) st

theorem insertBatches_all_insertCallOk (P : BVal → Bool) (ok : Nat → Bool) :
    ∀ (bs : List (List BVal)) (i : Nat) (st : List BVal),
      (∀ b ∈ bs, ∀ d ∈ b, P d = true) →
      ((insertBatches ok i bs st).2.1.all (insertCallOk P)) = true
  | [], _, _, _ => rfl
  | b :: bs, i, st, h => by
    have htl : ∀ b2 ∈ bs, ∀ d ∈ b2, P d = true :=
      fun b2 hb2 => h b2 (List.mem_cons_of_mem _ hb2)
    by_cases hb : b.isEmpty
    · simpa [insertBatches, hb] using insertBatches_all_insertCallOk P ok bs (i+1) st htl
    · have hall : b.all P = true :=
        List.all_eq_true.mpr (fun d hd => h b (List.mem_cons_self _ _) d hd)
      by_cases ho : ok i
      · have hrest := insertBatches_all_insertCallOk P ok bs (i+1) (st ++ b) htl
        simp only [insertBatches, hb, ho, if_true, Bool.false_eq_true, if_false,
          List.all_cons, Bool.and_eq_true]
        exact ⟨by simp [insertCallOk, hall], hrest⟩
      · have hrest := insertBatches_all_insertCallOk P ok bs (i+1) st htl
        simp only [insertBatches, hb, ho, Bool.false_eq_true, if_false,
          List.all_cons, Bool.and_eq_true]
        exact ⟨by simp [insertCallOk, hall], hrest⟩

theorem insertBatches_trace_len (ok : Nat → Bool) :
    ∀ (bs : List (List BVal)) (i : Nat) (st : List BVal),
      (insertBatches ok i bs st).2.1.length
        = (bs.filter (fun b => !b.isEmpty)).length
  | [], _, _ => rfl
  | b :: bs, i, st => by
    by_cases hb : b.isEmpty
    · simp [insertBatches, hb, insertBatches_trace_len ok bs (i+1) st]
    · by_cases ho : ok i <;>
        simp [insertBatches, hb, ho, insertBatches_trace_len ok bs (i+1)]

theorem dedupGo_map_const_of_seen {α : Type _} [BEq α] (c : α) :
    ∀ (l : List α) (seen : List α), (seen.any (fun y => y == c)) = true →
      dedupGo seen (l.map (fun _ => c)) = []
  | [], _, _ => rfl
  | x :: xs, seen, h => by
    simp only [List.map_cons, dedupGo, h, if_true]
    exact dedupGo_map_const_of_seen c xs seen h

theorem dedupB_map_const {α : Type _} [BEq α] (c : α) (hc : (c == c) = true) :
    ∀ (l : List α), l ≠ [] → dedupB (l.map (fun _ => c)) = [c]
  | [], h => absurd rfl h
  | x :: xs, _ => by
    simp only [dedupB, List.map_cons, dedupGo, List.any_nil, Bool.false_eq_true, if_false]
    rw [dedupGo_map_const_of_seen c xs [c] (by simp [hc])]

theorem dedupB_ne_nil {α : Type _} [BEq α] : ∀ (l : List α), l ≠ [] → dedupB l ≠ []
  | x :: xs, _ => by simp [dedupB, dedupGo]

theorem groupEval_gNull (accs : List (String × AccOp)) (s : List BVal) (h : s ≠ []) :
    groupEval .gNull accs s = [groupDoc accs .null s] := by
  unfold groupEval
  have hmap : s.map (groupKey .gNull) = s.map (fun _ => BVal.null) := rfl
  rw [hmap, dedupB_map_const BVal.null rfl s h]
  have hfil : s.filter (fun d => groupKey .gNull d == BVal.null) = s := by
    have : (fun d => groupKey .gNull d == BVal.null) = (fun _ : BVal => true) := rfl
    rw [this, List.filter_true]
  simp [hfil]

theorem groupEval_ne_nil (g : GroupId) (accs : List (String × AccOp))
    (s : List BVal) (h : s ≠ []) : groupEval g accs s ≠ [] := by
  unfold groupEval
  intro hc
  have h1 := List.map_eq_nil_iff.mp hc

  exact dedupB_ne_nil _ (by simpa using h) h1

theorem kpi_total_revenue_val (self : AggregationPipelines) (s : List BVal) (h : s ≠ []) :
    (self.kpi_total_revenue s).1 = .num (numsAt "metrics.amount" s).sum := by
  have hg := groupEval_gNull [("total", AccOp.sumPath "metrics.amount")] s h
  have hev : Pipeline.eval kpiTotalRevenuePipeline s
      = [groupDoc [("total", AccOp.sumPath "metrics.amount")] BVal.null s] := by
    simpa [Pipeline.eval, kpiTotalRevenuePipeline, applyStage] using hg
  simp [AggregationPipelines.kpi_total_revenue, hev, groupDoc, accEval, BVal.getField]

theorem kpi_total_items_sold_val (self : AggregationPipelines) (s : List BVal) (h : s ≠ []) :
    (self.kpi_total_items_sold s).1 = .num (numsAt "metrics.count" s).sum := by
  have hg := groupEval_gNull [("total_items", AccOp.sumPath "metrics.count")] s h
  have hev : Pipeline.eval kpiTotalItemsSoldPipeline s
      = [groupDoc [("total_items", AccOp.sumPath "metrics.count")] BVal.null s] := by
    simpa [Pipeline.eval, kpiTotalItemsSoldPipeline, applyStage] using hg
  simp [AggregationPipelines.kpi_total_items_sold, hev, groupDoc, accEval, BVal.getField]

theorem kpi_average_order_value_val (self : AggregationPipelines) (s : List BVal) (h : s ≠ []) :
    (self.kpi_average_order_value s).1
      = (if (numsAt "metrics.amount" s).isEmpty then BVal.null
         else .num ((numsAt "metrics.amount" s).sum / ((numsAt "metrics.amount" s).length : Rat))) := by
  have hg := groupEval_gNull [("avg_value", AccOp.avgPath "metrics.amount")] s h
  have hev : Pipeline.eval kpiAverageOrderValuePipeline s
      = [groupDoc [("avg_value", AccOp.avgPath "metrics.amount")] BVal.null s] := by
    simpa [Pipeline.eval, kpiAverageOrderValuePipeline, applyStage] using hg
  simp [AggregationPipelines.kpi_average_order_value, hev, groupDoc, accEval, BVal.getField]

theorem applyStage_countS_ne_nil (name : String) (s : List BVal) (h : s ≠ []) :
    applyStage (.countS name) s = [.doc [(name, .num s.length)]] := by
  cases s with
  | nil => exact absurd rfl h
  | cons a l => simp [applyStage]

theorem kpi_unique_customers_isNum (self : AggregationPipelines) (s : List BVal) :
    (self.kpi_unique_customers s).1.isNum = true := by
  cases s with
  | nil => rfl
  | cons d tl =>
    have hg := groupEval_ne_nil (.gPath "entity.id") [] (d :: tl) (by simp)
    have hev : Pipeline.eval kpiUniqueCustomersPipeline (d :: tl)
        = [.doc [("count", .num (groupEval (.gPath "entity.id") [] (d :: tl)).length)]] := by
      simp [Pipeline.eval, kpiUniqueCustomersPipeline, applyStage_countS_ne_nil _ _ hg]
      rfl
    simp [AggregationPipelines.kpi_unique_customers, hev, BVal.getField, BVal.isNum]

theorem kpi_unique_countries_isNum (self : AggregationPipelines) (s : List BVal) :
    (self.kpi_unique_countries s).1.isNum = true := by
  by_cases hf : s.filter (matchesCond (.existsNe "metadata.country" (.str ""))) = []
  · simp [AggregationPipelines.kpi_unique_countries, Pipeline.eval,
      kpiUniqueCountriesPipeline, applyStage, hf, groupEval, dedupB, dedupGo, BVal.isNum]
  · have hg := groupEval_ne_nil (.gPath "metadata.country") []
      (s.filter (matchesCond (.existsNe "metadata.country" (.str "")))) hf
    have hev : Pipeline.eval kpiUniqueCountriesPipeline s
        = [.doc [("count", .num (groupEval (.gPath "metadata.country") []
            (s.filter (matchesCond (.existsNe "metadata.country" (.str ""))))).length)]] := by
      simp [Pipeline.eval, kpiUniqueCountriesPipeline, applyStage]
      exact hg
    simp [AggregationPipelines.kpi_unique_countries, hev, BVal.getField, BVal.isNum]

/-!
Claim theorems.
-/

/-- The common document shape of the spec: `source`, `entity`, `metrics`,
`metadata`, `eventTime` all present. -/
def commonShape (d : BVal) : Bool :=
  (d.getField "source").isSome && (d.getField "entity").isSome
    && (d.getField "metrics").isSome && (d.getField "metadata").isSome
    && (d.getField "eventTime").isSome

/-- Common shape plus the expected `source.sourceId`. -/
def docFromSource (sid : String) (d : BVal) : Bool :=
  commonShape d && (getPath d "source.sourceId" == some (.str sid))

theorem buildDoc1_fromSource (now : DateT) (r : Row1) :
    docFromSource "source1" (buildDoc1 now r) = true := rfl

theorem buildDoc2_fromSource (now : DateT) (idx : Nat) (r : Row2) :
    docFromSource "source2" (buildDoc2 now idx r) = true := rfl

theorem buildDoc3_fromSource (now : DateT) (idx : Nat) (r : Row3) :
    docFromSource "source3" (buildDoc3 now idx r) = true := rfl

theorem mem_chunksOf {α : Type _} {n : Nat} {l : List α} {b : List α} {d : α}
    (hb : b ∈ chunksOf n l) (hd : d ∈ b) : d ∈ l := by
  rw [← chunksOf_flatten n l]
  exact List.mem_flatten.mpr ⟨b, hb, hd⟩

/-- C9: when the CSV file does not exist, each loader returns 0, issues no
collection call, and leaves the collection unchanged. -/
theorem c9_missing_file (now : DateT) (ok1 ok2 ok3 : Nat → Bool) (ro2 ro3 : Bool)
    (chunks : List (List Row1)) (rows2 : List Row2) (rows3 : List Row3)
    (st : List BVal) :
    load_csv_source1 false now ok1 chunks st = (0, [], st)
  ∧ load_csv_source2 false ro2 now ok2 rows2 st = (0, [], st)
  ∧ load_csv_source3 false ro3 now ok3 rows3 st = (0, [], st) :=
  ⟨rfl, rfl, rfl⟩

/-- C10: every document built by any of the three loaders has
schemaVersion 1, entity.type customer and source.type csv, for every row
content. -/
theorem c10_invariant_fields (now : DateT) (idx : Nat)
    (r1 : Row1) (r2 : Row2) (r3 : Row3) :
    ((buildDoc1 now r1).getField "schemaVersion" = some (.num 1)
      ∧ getPath (buildDoc1 now r1) "entity.type" = some (.str "customer")
      ∧ getPath (buildDoc1 now r1) "source.type" = some (.str "csv"))
  ∧ ((buildDoc2 now idx r2).getField "schemaVersion" = some (.num 1)
      ∧ getPath (buildDoc2 now idx r2) "entity.type" = some (.str "customer")
      ∧ getPath (buildDoc2 now idx r2) "source.type" = some (.str "csv"))
  ∧ ((buildDoc3 now idx r3).getField "schemaVersion" = some (.num 1)
      ∧ getPath (buildDoc3 now idx r3) "entity.type" = some (.str "customer")
      ∧ getPath (buildDoc3 now idx r3) "source.type" = some (.str "csv")) :=
  ⟨⟨rfl, rfl, rfl⟩, ⟨rfl, rfl, rfl⟩, ⟨rfl, rfl, rfl⟩⟩

/-- C6: in every source-1 document, metrics.amount is exactly
metrics.unitPrice times metrics.count, where count defaults to 0 and
unitPrice to 0.0 on a missing or NaN cell; a missing Quantity or UnitPrice
therefore forces amount 0. -/
theorem c6_amount_product (now : DateT) (r : Row1) :
    (getPath (buildDoc1 now r) "metrics.amount"
        = some (.num ((r.unitPrice.getD 0) * ((r.quantity.getD 0 : Int) : Rat)))
      ∧ getPath (buildDoc1 now r) "metrics.count"
          = some (.num ((r.quantity.getD 0 : Int) : Rat))
      ∧ getPath (buildDoc1 now r) "metrics.unitPrice"
          = some (.num (r.unitPrice.getD 0)))
  ∧ (r.quantity = none → getPath (buildDoc1 now r) "metrics.amount" = some (.num 0))
  ∧ (r.unitPrice = none → getPath (buildDoc1 now r) "metrics.amount" = some (.num 0)) := by
  refine ⟨⟨rfl, rfl, rfl⟩, ?_, ?_⟩
  all_goals
    intro h
    have key : getPath (buildDoc1 now r) "metrics.amount"
        = some (.num ((r.unitPrice.getD 0) * ((r.quantity.getD 0 : Int) : Rat))) := rfl
    rw [key, h]
    norm_num

/-- C6 witness: a concrete row with both cells missing yields amount 0. -/
theorem c6_amount_product_witness :
    getPath (buildDoc1 ⟨2026, 1, 15, 0⟩
        ⟨none, none, none, none, ⟨2011, 1, 1, 0⟩, none, none, none⟩) "metrics.amount"
      = some (.num 0) :=
  (c6_amount_product ⟨2026, 1, 15, 0⟩
    ⟨none, none, none, none, ⟨2011, 1, 1, 0⟩, none, none, none⟩).2.1 rfl

/-- C1: across all three loaders, every call in the trace is an
`insert_many(…, ordered=False)` into the single `records` collection whose
documents all have the common shape with the respective sourceId; and the
documents handed to the inserts are exactly the documents built from the
CSV rows, in order. -/
theorem c1_common_shape_unordered_inserts (now : DateT) (ok1 ok2 ok3 : Nat → Bool)
    (chunks : List (List Row1)) (rows2 : List Row2) (rows3 : List Row3)
    (st1 st2 st3 : List BVal) :
    ((load_csv_source1 true now ok1 chunks st1).2.1.all
        (insertCallOk (docFromSource "source1")) = true
      ∧ traceInsertedDocs (load_csv_source1 true now ok1 chunks st1).2.1
          = chunks.flatten.map (buildDoc1 now))
  ∧ ((load_csv_source2 true true now ok2 rows2 st2).2.1.all
        (insertCallOk (docFromSource "source2")) = true
      ∧ traceInsertedDocs (load_csv_source2 true true now ok2 rows2 st2).2.1
          = rows2.enum.map (fun p => buildDoc2 now p.1 p.2))
  ∧ ((load_csv_source3 true true now ok3 rows3 st3).2.1.all
        (insertCallOk (docFromSource "source3")) = true
      ∧ traceInsertedDocs (load_csv_source3 true true now ok3 rows3 st3).2.1
          = rows3.enum.map (fun p => buildDoc3 now p.1 p.2)) := by
  refine ⟨⟨?_, ?_⟩, ⟨?_, ?_⟩, ⟨?_, ?_⟩⟩
  · apply insertBatches_all_insertCallOk
    intro b hb d hd
    obtain ⟨c, _, rfl⟩ := List.mem_map.mp hb
    obtain ⟨r, _, rfl⟩ := List.mem_map.mp hd
    exact buildDoc1_fromSource now r
  · show traceInsertedDocs (insertBatches ok1 0 (chunks.map (fun c => c.map (buildDoc1 now))) st1).2.1 = _
    rw [insertBatches_docs]
    exact (List.map_flatten (buildDoc1 now) chunks).symm
  · apply insertBatches_all_insertCallOk
    intro b hb d hd
    have hmem := mem_chunksOf hb hd
    obtain ⟨p, _, rfl⟩ := List.mem_map.mp hmem
    exact buildDoc2_fromSource now p.1 p.2
  · show traceInsertedDocs (insertBatches ok2 0
        (chunksOf BATCH_SIZE (rows2.enum.map (fun p => buildDoc2 now p.1 p.2))) st2).2.1 = _
    rw [insertBatches_docs, chunksOf_flatten]
  · apply insertBatches_all_insertCallOk
    intro b hb d hd
    have hmem := mem_chunksOf hb hd
    obtain ⟨p, _, rfl⟩ := List.mem_map.mp hmem
    exact buildDoc3_fromSource now p.1 p.2
  · show traceInsertedDocs (insertBatches ok3 0
        (chunksOf BATCH_SIZE (rows3.enum.map (fun p => buildDoc3 now p.1 p.2))) st3).2.1 = _
    rw [insertBatches_docs, chunksOf_flatten]

/-- The total a loader reports, written independently of the loop: the
summed sizes of those nonempty batches whose insert the server accepted. -/
def expectedTotal (ok : Nat → Bool) (batches : List (List BVal)) : Nat :=
  (((List.enumFrom 0 batches).filter (fun p => !p.2.isEmpty && ok p.1)).map
    (fun p => p.2.length)).sum

/-- C5: a failed batch insert is not retried and does not abort the loop:
each loader attempts one insert per nonempty batch no matter which batches
fail, and the returned total counts exactly the documents of the accepted
batches. -/
theorem c5_failed_batches_counted (now : DateT) (ok1 ok2 ok3 : Nat → Bool)
    (chunks : List (List Row1)) (rows2 : List Row2) (rows3 : List Row3)
    (st1 st2 st3 : List BVal) :
    ((load_csv_source1 true now ok1 chunks st1).1
        = expectedTotal ok1 (chunks.map (fun c => c.map (buildDoc1 now)))
      ∧ (load_csv_source1 true now ok1 chunks st1).2.1.length
          = ((chunks.map (fun c => c.map (buildDoc1 now))).filter
              (fun b => !b.isEmpty)).length)
  ∧ ((load_csv_source2 true true now ok2 rows2 st2).1
        = expectedTotal ok2 (chunksOf BATCH_SIZE (rows2.enum.map (fun p => buildDoc2 now p.1 p.2)))
      ∧ (load_csv_source2 true true now ok2 rows2 st2).2.1.length
          = ((chunksOf BATCH_SIZE (rows2.enum.map (fun p => buildDoc2 now p.1 p.2))).filter
              (fun b => !b.isEmpty)).length)
  ∧ ((load_csv_source3 true true now ok3 rows3 st3).1
        = expectedTotal ok3 (chunksOf BATCH_SIZE (rows3.enum.map (fun p => buildDoc3 now p.1 p.2)))
      ∧ (load_csv_source3 true true now ok3 rows3 st3).2.1.length
          = ((chunksOf BATCH_SIZE (rows3.enum.map (fun p => buildDoc3 now p.1 p.2))).filter
              (fun b => !b.isEmpty)).length) :=
  ⟨⟨insertBatches_total ok1 _ 0 st1, insertBatches_trace_len ok1 _ 0 st1⟩,
   ⟨insertBatches_total ok2 _ 0 st2, insertBatches_trace_len ok2 _ 0 st2⟩,
   ⟨insertBatches_total ok3 _ 0 st3, insertBatches_trace_len ok3 _ 0 st3⟩⟩

/-- C7: the cleanup script drops the collection exactly when the
uppercased response is TAK; any other response leaves the collection
unchanged and prints Anulowano. -/
theorem c7_drop_iff_tak (resp : String) (st : List BVal) :
    ((cleanup_duplicates resp st).2.1 = if upperAscii resp == "TAK" then [] else st)
  ∧ (((cleanup_duplicates resp st).1.any (fun e =>
        match e.1 with
        | ColCall.dropColl c => c == COLLECTION
        | _ => false)) = (upperAscii resp == "TAK"))
  ∧ (¬ upperAscii resp = "TAK" →
      (cleanup_duplicates resp st).2.1 = st
        ∧ "Anulowano" ∈ (cleanup_duplicates resp st).2.2) := by
  by_cases h : upperAscii resp == "TAK"
  · refine ⟨?_, ?_, fun hc => absurd (eq_of_beq h) hc⟩ <;> simp [cleanup_duplicates, h]
  · refine ⟨?_, ?_, fun _ => ⟨?_, ?_⟩⟩ <;> simp [cleanup_duplicates, h]

/-- C7 witness: a concrete non-TAK response leaves a singleton collection
untouched and prints the cancellation message. -/
theorem c7_drop_iff_tak_witness :
    (cleanup_duplicates "nie" [BVal.num 1]).2.1 = [BVal.num 1]
  ∧ "Anulowano" ∈ (cleanup_duplicates "nie" [BVal.num 1]).2.2 :=
  (c7_drop_iff_tak "nie" [BVal.num 1]).2.2 (by decide)

/-- C3: every query method of `AggregationPipelines` is read-only: its
trace consists solely of read calls (aggregate or count), and replaying
the trace against the collection leaves the contents unchanged. Mutation
of the object cannot occur (no method assigns to `self`, so each is
modelled as a pure function of the object record), and determinism over a
fixed collection state is immediate from the methods being functions of
`(self, contents, arguments)`. -/
theorem c3_methods_read_only (self : AggregationPipelines) (st : List BVal) (limit : Nat) :
    ((self.kpi_total_revenue st).2.all (fun e => e.1.isRead) = true
      ∧ applyTrace (self.kpi_total_revenue st).2 st = st)
  ∧ ((self.kpi_total_orders st).2.all (fun e => e.1.isRead) = true
      ∧ applyTrace (self.kpi_total_orders st).2 st = st)
  ∧ ((self.kpi_unique_customers st).2.all (fun e => e.1.isRead) = true
      ∧ applyTrace (self.kpi_unique_customers st).2 st = st)
  ∧ ((self.kpi_average_order_value st).2.all (fun e => e.1.isRead) = true
      ∧ applyTrace (self.kpi_average_order_value st).2 st = st)
  ∧ ((self.kpi_total_items_sold st).2.all (fun e => e.1.isRead) = true
      ∧ applyTrace (self.kpi_total_items_sold st).2 st = st)
  ∧ ((self.kpi_unique_countries st).2.all (fun e => e.1.isRead) = true
      ∧ applyTrace (self.kpi_unique_countries st).2 st = st)
  ∧ ((self.top_products st limit).2.all (fun e => e.1.isRead) = true
      ∧ applyTrace (self.top_products st limit).2 st = st)
  ∧ ((self.top_countries st limit).2.all (fun e => e.1.isRead) = true
      ∧ applyTrace (self.top_countries st limit).2 st = st)
  ∧ ((self.top_customers st limit).2.all (fun e => e.1.isRead) = true
      ∧ applyTrace (self.top_customers st limit).2 st = st)
  ∧ ((self.daily_revenue st).2.all (fun e => e.1.isRead) = true
      ∧ applyTrace (self.daily_revenue st).2 st = st)
  ∧ ((self.monthly_revenue st).2.all (fun e => e.1.isRead) = true
      ∧ applyTrace (self.monthly_revenue st).2 st = st)
  ∧ ((self.revenue_by_source st).2.all (fun e => e.1.isRead) = true
      ∧ applyTrace (self.revenue_by_source st).2 st = st)
  ∧ ((self.customers_by_country st).2.all (fun e => e.1.isRead) = true
      ∧ applyTrace (self.customers_by_country st).2 st = st)
  ∧ ((self.order_value_distribution st).2.all (fun e => e.1.isRead) = true
      ∧ applyTrace (self.order_value_distribution st).2 st = st)
  ∧ ((self.customer_segmentation st).2.all (fun e => e.1.isRead) = true
      ∧ applyTrace (self.customer_segmentation st).2 st = st)
  ∧ ((self.product_performance st).2.all (fun e => e.1.isRead) = true
      ∧ applyTrace (self.product_performance st).2 st = st)
  ∧ ((self.get_all_kpi st).2.all (fun e => e.1.isRead) = true
      ∧ applyTrace (self.get_all_kpi st).2 st = st)
  ∧ ((self.get_all_aggregations st).2.all (fun e => e.1.isRead) = true
      ∧ applyTrace (self.get_all_aggregations st).2 st = st) :=
  ⟨⟨rfl, rfl⟩, ⟨rfl, rfl⟩, ⟨rfl, rfl⟩, ⟨rfl, rfl⟩, ⟨rfl, rfl⟩, ⟨rfl, rfl⟩,
   ⟨rfl, rfl⟩, ⟨rfl, rfl⟩, ⟨rfl, rfl⟩, ⟨rfl, rfl⟩, ⟨rfl, rfl⟩, ⟨rfl, rfl⟩,
   ⟨rfl, rfl⟩, ⟨rfl, rfl⟩, ⟨rfl, rfl⟩, ⟨rfl, rfl⟩, ⟨rfl, rfl⟩, ⟨rfl, rfl⟩⟩

/-- A sample parsed row of the source-1 CSV, used for concrete inputs. -/
def sampleRow1 : Row1 :=
  ⟨some "536365", some "85123A", some "WHITE HANGING HEART", some 6,
   ⟨2010, 12, 1, 8⟩, some (255/100), some "17850", some "United Kingdom"⟩

/-- A sample parsed row of the source-3 CSV (customers), used for concrete
inputs; its document carries no metrics.amount. -/
def sampleRow3 : Row3 :=
  ⟨some "C1", some 10, some 5, some "Jan Kowalski", some "jan@example.com",
   some "Warszawa", some "Poland", some "2024-01-01"⟩

/-- The `datetime.now` stand-in for concrete inputs. -/
def sampleNow : DateT := ⟨2026, 1, 15, 0⟩

/-- C2 counterexample: with the collection holding the one document built
from a one-row source-1 CSV (and sources 2 and 3 empty), confirming the
cleanup leaves the collection empty, while the documents produced from the
three CSV sources are the nonempty list the claim says the collection
should again contain: the script drops but does not reload. -/
theorem c2_counterexample :
    (cleanup_duplicates "TAK" [buildDoc1 sampleNow sampleRow1]).2.1 = []
  ∧ (run_etl sampleNow (fun _ => true) (fun _ => true) (fun _ => true)
      [[sampleRow1]] [] [] []).2 = [buildDoc1 sampleNow sampleRow1]
  ∧ (cleanup_duplicates "TAK" [buildDoc1 sampleNow sampleRow1]).2.1
      ≠ [buildDoc1 sampleNow sampleRow1] := by
  refine ⟨rfl, ?_, ?_⟩
  · simp [run_etl, load_csv_source1, load_csv_source2, load_csv_source3,
      insertBatches, chunksOf_nil]
  · intro hc
    rw [show (cleanup_duplicates "TAK" [buildDoc1 sampleNow sampleRow1]).2.1 = [] from rfl] at hc
    exact List.noConfusion hc

/-- C2 amended: after the user confirms, the cleanup script only drops the
collection (leaving it empty) and prints the instruction to rerun the ETL
pipeline; the reload happens only when the loaders are run again, after
which the collection contains exactly the documents produced from the
three CSV sources. -/
theorem c2_amended_drop_then_manual_reload (resp : String) (st : List BVal)
    (now : DateT) (chunks : List (List Row1)) (rows2 : List Row2) (rows3 : List Row3)
    (h : upperAscii resp = "TAK") :
    (cleanup_duplicates resp st).2.1 = []
  ∧ ((cleanup_duplicates resp st).1.any (fun e =>
        match e.1 with
        | ColCall.dropColl c => c == COLLECTION
        | _ => false)) = true
  ∧ "  python scripts/etl_pipeline.py" ∈ (cleanup_duplicates resp st).2.2
  ∧ (run_etl now (fun _ => true) (fun _ => true) (fun _ => true)
        chunks rows2 rows3 (cleanup_duplicates resp st).2.1).2
      = chunks.flatten.map (buildDoc1 now)
        ++ rows2.enum.map (fun p => buildDoc2 now p.1 p.2)
        ++ rows3.enum.map (fun p => buildDoc3 now p.1 p.2) := by
  have hb : (upperAscii resp == "TAK") = true := beq_iff_eq.mpr h
  refine ⟨?_, ?_, ?_, ?_⟩
  · simp [cleanup_duplicates, hb]
  · simp [cleanup_duplicates, hb]
  · simp [cleanup_duplicates, hb]
  · have hdrop : (cleanup_duplicates resp st).2.1 = [] := by simp [cleanup_duplicates, hb]
    rw [hdrop]
    show (run_etl now (fun _ => true) (fun _ => true) (fun _ => true) chunks rows2 rows3 []).2 = _
    unfold run_etl load_csv_source1 load_csv_source2 load_csv_source3
    simp only [if_true]
    rw [insertBatches_state_allOk, insertBatches_state_allOk, insertBatches_state_allOk]
    rw [chunksOf_flatten, chunksOf_flatten]
    rw [(List.map_flatten (buildDoc1 now) chunks).symm]
    simp [List.append_assoc]

/-- C2 witness: the amended behaviour at a concrete confirmed run. -/
theorem c2_amended_witness :
    (cleanup_duplicates "tak" [buildDoc1 sampleNow sampleRow1]).2.1 = []
  ∧ ((cleanup_duplicates "tak" [buildDoc1 sampleNow sampleRow1]).1.any (fun e =>
        match e.1 with
        | ColCall.dropColl c => c == COLLECTION
        | _ => false)) = true
  ∧ "  python scripts/etl_pipeline.py"
      ∈ (cleanup_duplicates "tak" [buildDoc1 sampleNow sampleRow1]).2.2
  ∧ (run_etl sampleNow (fun _ => true) (fun _ => true) (fun _ => true)
        [[sampleRow1]] [] []
        (cleanup_duplicates "tak" [buildDoc1 sampleNow sampleRow1]).2.1).2
      = [[sampleRow1]].flatten.map (buildDoc1 sampleNow)
        ++ ([] : List Row2).enum.map (fun p => buildDoc2 sampleNow p.1 p.2)
        ++ ([] : List Row3).enum.map (fun p => buildDoc3 sampleNow p.1 p.2) :=
  c2_amended_drop_then_manual_reload "tak" [buildDoc1 sampleNow sampleRow1]
    sampleNow [[sampleRow1]] [] [] (by decide)

/-- C4 counterexample: the collection holding only the document of a
source-3 customer row (reachable by loading customers.csv alone) makes
`kpi_average_order_value` return null, not a scalar number: the $avg over
`metrics.amount` sees no numeric value, the group document carries
avg_value null, and the Python body returns it unchanged. -/
theorem c4_counterexample :
    (AggregationPipelines.init.kpi_average_order_value
        [buildDoc3 sampleNow 0 sampleRow3]).1 = BVal.null
  ∧ BVal.null.isNum = false :=
  ⟨rfl, rfl⟩

/-- C4 amended: each of the six KPI methods issues exactly one read query
and returns 0 on an empty collection; five of them return a scalar number
on every collection state, and `kpi_average_order_value` returns a scalar
number whenever at least one document carries a numeric metrics.amount
(returning null otherwise, as the counterexample shows). -/
theorem c4_amended_kpi_scalars (self : AggregationPipelines) (st : List BVal) :
    ((self.kpi_total_revenue []).1 = .num 0
      ∧ (self.kpi_total_orders []).1 = .num 0
      ∧ (self.kpi_unique_customers []).1 = .num 0
      ∧ (self.kpi_average_order_value []).1 = .num 0
      ∧ (self.kpi_total_items_sold []).1 = .num 0
      ∧ (self.kpi_unique_countries []).1 = .num 0)
  ∧ ((self.kpi_total_revenue st).2
        = [(ColCall.aggregate self.collName kpiTotalRevenuePipeline, true)]
      ∧ (self.kpi_total_orders st).2
          = [(ColCall.countDocuments self.collName, true)]
      ∧ (self.kpi_unique_customers st).2
          = [(ColCall.aggregate self.collName kpiUniqueCustomersPipeline, true)]
      ∧ (self.kpi_average_order_value st).2
          = [(ColCall.aggregate self.collName kpiAverageOrderValuePipeline, true)]
      ∧ (self.kpi_total_items_sold st).2
          = [(ColCall.aggregate self.collName kpiTotalItemsSoldPipeline, true)]
      ∧ (self.kpi_unique_countries st).2
          = [(ColCall.aggregate self.collName kpiUniqueCountriesPipeline, true)])
  ∧ ((self.kpi_total_revenue st).1.isNum = true
      ∧ (self.kpi_total_orders st).1.isNum = true
      ∧ (self.kpi_unique_customers st).1.isNum = true
      ∧ (self.kpi_total_items_sold st).1.isNum = true
      ∧ (self.kpi_unique_countries st).1.isNum = true)
  ∧ ((∃ d ∈ st, ((getPath d "metrics.amount").bind BVal.asNum).isSome) →
      (self.kpi_average_order_value st).1.isNum = true) := by
  refine ⟨⟨rfl, rfl, rfl, rfl, rfl, rfl⟩, ⟨rfl, rfl, rfl, rfl, rfl, rfl⟩,
    ⟨?_, rfl, kpi_unique_customers_isNum self st, ?_,
      kpi_unique_countries_isNum self st⟩, ?_⟩
  · cases st with
    | nil => rfl
    | cons d tl => rw [kpi_total_revenue_val self (d :: tl) (by simp)]; rfl
  · cases st with
    | nil => rfl
    | cons d tl => rw [kpi_total_items_sold_val self (d :: tl) (by simp)]; rfl
  · rintro ⟨d, hd, hsome⟩
    have hne : st ≠ [] := List.ne_nil_of_mem hd
    rw [kpi_average_order_value_val self st hne]
    obtain ⟨q, hq⟩ := Option.isSome_iff_exists.mp hsome
    have hmem : q ∈ numsAt "metrics.amount" st :=
      List.mem_filterMap.mpr ⟨d, hd, hq⟩
    have hfe : (numsAt "metrics.amount" st).isEmpty = false := by
      cases hn : numsAt "metrics.amount" st with
      | nil => rw [hn] at hmem; exact absurd hmem (List.not_mem_nil q)
      | cons a l => rfl
    rw [hfe]
    rfl

/-- C4 witness: on a collection holding one source-1 document the average
is a scalar number. -/
theorem c4_amended_kpi_scalars_witness :
    (AggregationPipelines.init.kpi_average_order_value
        [buildDoc1 sampleNow sampleRow1]).1.isNum = true :=
  (c4_amended_kpi_scalars AggregationPipelines.init
      [buildDoc1 sampleNow sampleRow1]).2.2.2
    ⟨buildDoc1 sampleNow sampleRow1, List.mem_singleton.mpr rfl, rfl⟩

/-- Invariant-carrying specification of the polling loop: starting below
`nextRun + 60`, every emitted command is the loader invocation, and the
k-th run happens in the 60-second window after the k-th daily occurrence. -/
theorem schedulerLoop_spec :
    ∀ (fuel : Nat) (s : SchedState), s.now < s.nextRun + SLEEP_SECONDS →
      (∀ e ∈ schedulerLoop fuel s, e.2 = loaderCmd)
      ∧ ∀ (k t : Nat) (c : List String),
          (schedulerLoop fuel s)[k]? = some (t, c) →
          s.nextRun + k * SECONDS_PER_DAY ≤ t
            ∧ t < s.nextRun + k * SECONDS_PER_DAY + SLEEP_SECONDS
  | 0, s, _ => by
    constructor
    · intro e he
      simp [schedulerLoop] at he
    · intro k t c hk
      simp [schedulerLoop] at hk
  | fuel + 1, s, hinv => by
    by_cases hfire : s.nextRun ≤ s.now
    · have heq : schedulerLoop (fuel + 1) s
          = (s.now, loaderCmd)
            :: schedulerLoop fuel ⟨s.now + SLEEP_SECONDS, s.nextRun + SECONDS_PER_DAY⟩ := by
        simp [schedulerLoop, schedulerTick, hfire]
      have hinv2 : (SchedState.mk (s.now + SLEEP_SECONDS) (s.nextRun + SECONDS_PER_DAY)).now
          < (SchedState.mk (s.now + SLEEP_SECONDS) (s.nextRun + SECONDS_PER_DAY)).nextRun
              + SLEEP_SECONDS := by
        simp only [SLEEP_SECONDS, SECONDS_PER_DAY] at hinv ⊢
        omega
      obtain ⟨ihc, ihb⟩ := schedulerLoop_spec fuel _ hinv2
      rw [heq]
      constructor
      · intro e he
        rcases List.mem_cons.mp he with h | h
        · rw [h]
        · exact ihc e h
      · intro k t c hk
        cases k with
        | zero =>
          simp only [List.getElem?_cons_zero, Option.some_inj] at hk
          injection hk with h1 h2
          subst h1
          simp only [SLEEP_SECONDS, SECONDS_PER_DAY] at hinv ⊢
          omega
        | succ k =>
          simp only [List.getElem?_cons_succ] at hk
          have := ihb k t c hk
          simp only [SLEEP_SECONDS, SECONDS_PER_DAY] at this ⊢
          omega
    · have heq : schedulerLoop (fuel + 1) s
          = schedulerLoop fuel ⟨s.now + SLEEP_SECONDS, s.nextRun⟩ := by
        simp [schedulerLoop, schedulerTick, hfire]
      have hinv2 : (SchedState.mk (s.now + SLEEP_SECONDS) s.nextRun).now
          < (SchedState.mk (s.now + SLEEP_SECONDS) s.nextRun).nextRun + SLEEP_SECONDS := by
        simp only [SLEEP_SECONDS] at hinv ⊢
        omega
      obtain ⟨ihc, ihb⟩ := schedulerLoop_spec fuel _ hinv2
      rw [heq]
      exact ⟨ihc, ihb⟩

/-- Liveness of the polling loop: once the poll ticks have passed the n-th
daily occurrence by a full sleep interval, at least n+1 invocations have
been emitted. -/
theorem schedulerLoop_length_ge :
    ∀ (fuel : Nat) (s : SchedState) (n : Nat),
      s.now < s.nextRun + SLEEP_SECONDS →
      s.nextRun + n * SECONDS_PER_DAY + SLEEP_SECONDS ≤ s.now + fuel * SLEEP_SECONDS →
      n + 1 ≤ (schedulerLoop fuel s).length
  | 0, s, n, hinv, hfar => by
    simp only [SLEEP_SECONDS, SECONDS_PER_DAY] at hinv hfar
    omega
  | fuel + 1, s, n, hinv, hfar => by
    by_cases hfire : s.nextRun ≤ s.now
    · have heq : schedulerLoop (fuel + 1) s
          = (s.now, loaderCmd)
            :: schedulerLoop fuel ⟨s.now + SLEEP_SECONDS, s.nextRun + SECONDS_PER_DAY⟩ := by
        simp [schedulerLoop, schedulerTick, hfire]
      rw [heq]
      cases n with
      | zero => simp
      | succ m =>
        have hinv2 : (SchedState.mk (s.now + SLEEP_SECONDS) (s.nextRun + SECONDS_PER_DAY)).now
            < (SchedState.mk (s.now + SLEEP_SECONDS) (s.nextRun + SECONDS_PER_DAY)).nextRun
                + SLEEP_SECONDS := by
          simp only [SLEEP_SECONDS, SECONDS_PER_DAY] at hinv ⊢
          omega
        have hfar2 : (SchedState.mk (s.now + SLEEP_SECONDS) (s.nextRun + SECONDS_PER_DAY)).nextRun
              + m * SECONDS_PER_DAY + SLEEP_SECONDS
            ≤ (SchedState.mk (s.now + SLEEP_SECONDS) (s.nextRun + SECONDS_PER_DAY)).now
                + fuel * SLEEP_SECONDS := by
          simp only [SLEEP_SECONDS, SECONDS_PER_DAY] at hfar ⊢
          omega
        have hrec := schedulerLoop_length_ge fuel
          ⟨s.now + SLEEP_SECONDS, s.nextRun + SECONDS_PER_DAY⟩ m hinv2 hfar2
        simp only [List.length_cons]
        omega
    · have heq : schedulerLoop (fuel + 1) s
          = schedulerLoop fuel ⟨s.now + SLEEP_SECONDS, s.nextRun⟩ := by
        simp [schedulerLoop, schedulerTick, hfire]
      rw [heq]
      refine schedulerLoop_length_ge fuel ⟨s.now + SLEEP_SECONDS, s.nextRun⟩ n ?_ ?_
      · simp only [SLEEP_SECONDS] at hinv ⊢
        omega
      · simp only [SLEEP_SECONDS, SECONDS_PER_DAY] at hfar ⊢
        omega

/-- C8: the scheduler loop only ever executes the loader command; the
first scheduled moment is the configured time of day; the k-th invocation
happens within the 60-second poll window after the k-th daily occurrence
of that time (so never at any other time, and at most once per day); and
once the poll ticks have passed the n-th daily occurrence the loop has
emitted at least n+1 invocations, so the loader really does run once per
day, up to the 60-second granularity the loop itself imposes. -/
theorem c8_daily_scheduler (fuel t0 sT : Nat) (h : sT < SECONDS_PER_DAY) :
    (∀ e ∈ schedulerLoop fuel ⟨t0, initialNextRun t0 sT⟩, e.2 = loaderCmd)
  ∧ initialNextRun t0 sT % SECONDS_PER_DAY = sT
  ∧ (∀ (k t : Nat) (c : List String),
      (schedulerLoop fuel ⟨t0, initialNextRun t0 sT⟩)[k]? = some (t, c) →
      initialNextRun t0 sT + k * SECONDS_PER_DAY ≤ t
        ∧ t < initialNextRun t0 sT + k * SECONDS_PER_DAY + SLEEP_SECONDS)
  ∧ (∀ n : Nat,
      initialNextRun t0 sT + n * SECONDS_PER_DAY + SLEEP_SECONDS
          ≤ t0 + fuel * SLEEP_SECONDS →
      n + 1 ≤ (schedulerLoop fuel ⟨t0, initialNextRun t0 sT⟩).length) := by
  have hinv : (SchedState.mk t0 (initialNextRun t0 sT)).now
      < (SchedState.mk t0 (initialNextRun t0 sT)).nextRun + SLEEP_SECONDS := by
    simp only [initialNextRun, SECONDS_PER_DAY, SLEEP_SECONDS]
    split <;> omega
  obtain ⟨hc, hb⟩ := schedulerLoop_spec fuel ⟨t0, initialNextRun t0 sT⟩ hinv
  refine ⟨hc, ?_, hb, ?_⟩
  · simp only [initialNextRun, SECONDS_PER_DAY] at h ⊢
    split <;> omega
  · intro n hn
    exact schedulerLoop_length_ge fuel ⟨t0, initialNextRun t0 sT⟩ n hinv hn

/-- C8 witness: with schedule time 60 and two poll iterations the loader
fires exactly once, at the scheduled moment: the liveness bound applied at
n = 0 guarantees an invocation, and the event list evaluates to the single
loader command at time 60. -/
theorem c8_daily_scheduler_witness :
    60 < SECONDS_PER_DAY
  ∧ (∀ e ∈ schedulerLoop 2 ⟨0, initialNextRun 0 60⟩, e.2 = loaderCmd)
  ∧ 0 + 1 ≤ (schedulerLoop 2 ⟨0, initialNextRun 0 60⟩).length
  ∧ schedulerLoop 2 ⟨0, initialNextRun 0 60⟩ = [(60, loaderCmd)] :=
  ⟨by decide,
   (c8_daily_scheduler 2 0 60 (by decide)).1,
   (c8_daily_scheduler 2 0 60 (by decide)).2.2.2 0 (by decide),
   rfl⟩
